import Mathlib

/-!
Verification of the Idox planning-application spider
(`planning_applications/spiders/idox.py`).

The file shallowly embeds the crawl-and-extract core of the spider: the
search-form builder, the results-page walker with its scrape limit, the
per-row key extraction, the two detail-tab handlers with their merge
logic, the horizontal-table field extractor, and the date parsing.
Python strings are Lean `String`s; the Python string operations the code
uses (`in`, `split`, `replace`, `strip`, `lower`, `int`) are re-implemented
below over `List Char` with structural recursion so that every definition
evaluates inside the kernel.  Fallible Python code (raising `IndexError`,
`TypeError`, `KeyError`, `ValueError`) is embedded with `Except PyErr`.
-/

deriving instance DecidableEq for Except

namespace PlanningApplications

/-- The Python exceptions the embedded code can raise. -/
inductive PyErr where
  | indexError
  | keyError (key : String)
  | typeError (msg : String)
  | valueError (msg : String)
deriving DecidableEq, Repr

/-! ### Python string primitives (structural, kernel-evaluable) -/

/-- Does the first list occur as a leading segment of the second? -/
def charsStartWith : List Char → List Char → Bool
  | [], _ => true
  | _ :: _, [] => false
  | p :: ps, c :: cs => p == c && charsStartWith ps cs

/-- Does `needle` occur contiguously inside the second list? -/
def charsContain (needle : List Char) : List Char → Bool
  | [] => charsStartWith needle []
  | c :: cs => charsStartWith needle (c :: cs) || charsContain needle cs

/-- Python `needle in hay` on strings: contiguous substring test. -/
def pyIn (needle hay : String) : Bool :=
  charsContain needle.data hay.data

/-- Fuel-driven worker for `pySplit`; fuel starts at the list length, and each
step consumes at least one character, so the `0` case is unreachable. -/
def charsSplitAux (sep : List Char) : Nat → List Char → List Char → List (List Char)
  | _, [], acc => [acc.reverse]
  | 0, cs, acc => [acc.reverse ++ cs]
  | fuel + 1, c :: cs, acc =>
    if charsStartWith sep (c :: cs) then
      acc.reverse :: charsSplitAux sep fuel ((c :: cs).drop sep.length) []
    else
      charsSplitAux sep fuel cs (c :: acc)

/-- Python `s.split(sep)` for a non-empty separator: split on every
non-overlapping occurrence, left to right.  Always returns at least one part. -/
def pySplit (s sep : String) : List String :=
  if sep.data = [] then [s]
  else (charsSplitAux sep.data s.data.length s.data []).map String.mk

/-- Fuel-driven worker for `pyReplace`. -/
def charsReplaceAux (pat sub : List Char) : Nat → List Char → List Char
  | _, [] => []
  | 0, cs => cs
  | fuel + 1, c :: cs =>
    if charsStartWith pat (c :: cs) then
      sub ++ charsReplaceAux pat sub fuel ((c :: cs).drop pat.length)
    else
      c :: charsReplaceAux pat sub fuel cs

/-- Python `s.replace(pat, sub)` for a non-empty pattern: replace every
non-overlapping occurrence, left to right. -/
def pyReplace (s pat sub : String) : String :=
  String.mk (charsReplaceAux pat.data sub.data s.data.length s.data)

/-- Python `s.strip()`: drop whitespace from both ends. -/
def pyStrip (s : String) : String :=
  String.mk (((s.data.dropWhile Char.isWhitespace).reverse.dropWhile Char.isWhitespace).reverse)

/-- Python `s.lower()` (ASCII case folding suffices for the month and weekday
abbreviations the spider meets). -/
def pyLower (s : String) : String :=
  String.mk (s.data.map Char.toLower)

/-- Accumulator worker for `pyToNat?`. -/
def charsToNatAux : List Char → Nat → Option Nat
  | [], acc => some acc
  | c :: cs, acc =>
    if c.isDigit then charsToNatAux cs (acc * 10 + (c.toNat - 48)) else none

/-- Parse a non-empty all-digit string to a `Nat` (the digit groups `strptime`
matches); anything else is `none`. -/
def pyToNat? (s : String) : Option Nat :=
  match s.data with
  | [] => none
  | cs => charsToNatAux cs 0

/-! ### Dates -/

/-- A Python `datetime.date` (the code stores `datetime.strptime` results,
whose time part is always midnight, so a calendar date is the faithful model). -/
structure Date where
  year : Nat
  month : Nat
  day : Nat
deriving DecidableEq, Repr

/-- Python `date` comparison `a < b` (lexicographic on year, month, day). -/
def Date.lt (a b : Date) : Bool :=
  decide (a.year < b.year) ||
    (decide (a.year = b.year) &&
      (decide (a.month < b.month) ||
        (decide (a.month = b.month) && decide (a.day < b.day))))

/-- Python `date` comparison `a <= b`. -/
def Date.le (a b : Date) : Bool :=
  decide (a.year < b.year) ||
    (decide (a.year = b.year) &&
      (decide (a.month < b.month) ||
        (decide (a.month = b.month) && decide (a.day ≤ b.day))))

theorem Date.le_of_not_lt {a b : Date} (h : Date.lt b a = false) : Date.le a b = true := by
  simp only [Date.lt, Bool.or_eq_false_iff, Bool.and_eq_false_iff,
    decide_eq_false_iff_not, not_lt] at h
  simp only [Date.le, Bool.or_eq_true, Bool.and_eq_true, decide_eq_true_eq]
  omega

/-- Gregorian leap-year test, as `datetime` validates day-of-month. -/
def isLeapYear (y : Nat) : Bool :=
  y % 4 == 0 && (y % 100 != 0 || y % 400 == 0)

/-- Days in a month, as `datetime` validates day-of-month. -/
def daysInMonth (y m : Nat) : Nat :=
  if m == 2 then (if isLeapYear y then 29 else 28)
  else if m == 4 || m == 6 || m == 9 || m == 11 then 30
  else 31

/-- Lower-cased abbreviated weekday names accepted by `strptime`'s `%a`
(`strptime` matches names case-insensitively and does not cross-check the
weekday against the date). -/
def weekdayAbbreviations : List String :=
  ["mon", "tue", "wed", "thu", "fri", "sat", "sun"]

/-- Lower-cased abbreviated month names accepted by `strptime`'s `%b`, in
month order. -/
def monthAbbreviations : List String :=
  ["jan", "feb", "mar", "apr", "may", "jun", "jul", "aug", "sep", "oct", "nov", "dec"]

/-- Python `datetime.strptime(s, "%a %d %b %Y")`, the format the detail pages
use (idox.py lines 204 and 208): abbreviated weekday, 1-2 digit day,
abbreviated month, 1-4 digit year, separated by whitespace; raises
`ValueError` on anything else. -/
def strptime_a_d_b_Y (s : String) : Except PyErr Date :=
  match (pySplit s " ").filter (fun t => t.data != []) with
  | [w, d, m, y] =>
    if weekdayAbbreviations.contains (pyLower w) then
      match monthAbbreviations.findIdx? (fun t => t == pyLower m), pyToNat? d, pyToNat? y with
      | some mi, some dd, some yy =>
        if d.data.length ≤ 2 && y.data.length ≤ 4 && decide (1 ≤ yy) &&
            decide (1 ≤ dd) && decide (dd ≤ daysInMonth yy (mi + 1)) then
          .ok ⟨yy, mi + 1, dd⟩
        else .error (.valueError s)
      | _, _, _ => .error (.valueError s)
    else .error (.valueError s)
  | _ => .error (.valueError s)

/-- Modelled from the spec: `DEFAULT_DATE_FORMAT` lives in
`planning_applications.settings`, which is not under `src/`; the code comments
on idox.py lines 42 and 44 document the configuration date format as
`YYYY-MM-DD`, i.e. `"%Y-%m-%d"`. -/
def DEFAULT_DATE_FORMAT : String := "%Y-%m-%d"

/-- Python `datetime.strptime(s, "%Y-%m-%d")`, used by `IdoxSpider.__init__`
to convert string-valued `start_date` / `end_date` attributes. -/
def strptime_Y_m_d (s : String) : Except PyErr Date :=
  match pySplit s "-" with
  | [y, m, d] =>
    match pyToNat? y, pyToNat? m, pyToNat? d with
    | some yy, some mm, some dd =>
      if y.data.length ≤ 4 && m.data.length ≤ 2 && d.data.length ≤ 2 &&
          decide (1 ≤ yy) && decide (1 ≤ mm) && decide (mm ≤ 12) &&
          decide (1 ≤ dd) && decide (dd ≤ daysInMonth yy mm) then
        .ok ⟨yy, mm, dd⟩
      else .error (.valueError s)
    | _, _, _ => .error (.valueError s)
  | _ => .error (.valueError s)

/-- Zero-pad a number to two digits, as `strftime`'s `%d` / `%m` do. -/
def pad2 (n : Nat) : String :=
  if n < 10 then "0" ++ toString n else toString n

/-- Zero-pad a year to four digits, as `strftime`'s `%Y` does. -/
def pad4 (n : Nat) : String :=
  if n < 10 then "000" ++ toString n
  else if n < 100 then "00" ++ toString n
  else if n < 1000 then "0" ++ toString n
  else toString n

/-- `date.strftime("%d/%m/%Y")`, the search-form date format
(`formatted_start_date` / `formatted_end_date`, idox.py lines 450-456). -/
def Date.strftime_dmY (d : Date) : String :=
  pad2 d.day ++ "/" ++ pad2 d.month ++ "/" ++ pad4 d.year

/-! ### HTML table model and the field extractor

A detail-page table is a list of rows; a row is a list of cells, each a
`th` or `td` element carrying its text.  An element with no text carries
`""` (parsed HTML has no empty text nodes, so a cell with text `""` is a
cell with no text node at all). -/

/-- The cell kinds the extractor's XPath distinguishes. -/
inductive CellTag where
  | th
  | td
deriving DecidableEq, Repr

/-- A table cell: a `th` or `td` element and its text content. -/
structure Cell where
  tag : CellTag
  text : String
deriving DecidableEq, Repr

/-- A `<table>` element: rows of cells. -/
structure HtmlTable where
  rows : List (List Cell)
deriving DecidableEq, Repr

/-- The text nodes selected within one row by the XPath
`.//th[contains(text(), label)]/following-sibling::td/text()`
(idox.py line 366): the texts of every `td` that has some preceding
sibling `th` whose text contains `label`, in document order; a `td`
carrying `""` has no text node and is not selected.  `seenHeader` records
whether a matching `th` has occurred earlier in the row. -/
def rowValueTexts (label : String) : List Cell → Bool → List String
  | [], _ => []
  | c :: rest, seenHeader =>
    match c.tag with
    | .th => rowValueTexts label rest (seenHeader || pyIn label c.text)
    | .td =>
      (if seenHeader && c.text != "" then [c.text] else []) ++ rowValueTexts label rest seenHeader

/-- All text nodes the extractor's XPath selects in the table, in document
order; `.get()` takes the head. -/
def tableValueTexts (label : String) (table : HtmlTable) : List String :=
  (table.rows.map (fun r => rowValueTexts label r false)).flatten

/-- `IdoxSpider._get_horizontal_table_value` (idox.py lines 365-369): the
first selected text node, stripped; `None` when no text node is selected
(Python's `if texts:` also treats an empty string as absent). -/
def get_horizontal_table_value (table : HtmlTable) (label : String) : Option String :=
  match (tableValueTexts label table).head? with
  | none => none
  | some t => if t = "" then none else some (pyStrip t)

/-- Does any `th` cell of the table contain `label` in its text? -/
def tableHasHeaderContaining (table : HtmlTable) (label : String) : Bool :=
  table.rows.any (fun r => r.any (fun c => c.tag == CellTag.th && pyIn label c.text))

/-! ### The data model (`planning_applications.items`)

Modelled from the spec: the three record classes live in
`planning_applications/items.py`, which is not under `src/`; their fields
are taken from the output-record shape of the spec and the field
assignments in idox.py (lines 196-213, 242-263, 464-481).  All fields are
optional and default to absent, as the spec's data model states. -/

/-- Modelled from the spec: `PlanningApplicationDetailsSummary`
(summary-tab fields; spec section 3 "DetailsSummary"). -/
structure PlanningApplicationDetailsSummary where
  reference : Option String := none
  application_received : Option Date := none
  application_validated : Option Date := none
  address : Option String := none
  proposal : Option String := none
  appeal_status : Option String := none
  appeal_decision : Option String := none
deriving DecidableEq, Repr

/-- Modelled from the spec: `PlanningApplicationDetailsFurtherInformation`
(further-information-tab fields; spec section 3
"DetailsFurtherInformation"). -/
structure PlanningApplicationDetailsFurtherInformation where
  application_type : Option String := none
  expected_decision_level : Option String := none
  case_officer : Option String := none
  parish : Option String := none
  ward : Option String := none
  applicant_name : Option String := none
  district_reference : Option String := none
  applicant_address : Option String := none
  environmental_assessment_requested : Option String := none
deriving DecidableEq, Repr

/-- Modelled from the spec: `PlanningApplicationItem`, the merged record
(spec section 6 "Output record shape"; construction site idox.py lines
464-481). -/
structure PlanningApplicationItem where
  lpa : String
  reference : Option String := none
  application_received : Option Date := none
  application_validated : Option Date := none
  address : Option String := none
  proposal : Option String := none
  appeal_status : Option String := none
  appeal_decision : Option String := none
  application_type : Option String := none
  expected_decision_level : Option String := none
  case_officer : Option String := none
  parish : Option String := none
  ward : Option String := none
  district_reference : Option String := none
  applicant_name : Option String := none
  applicant_address : Option String := none
  environmental_assessment_requested : Option String := none
deriving DecidableEq, Repr

/-- `applicationStatus` (idox.py lines 25-33): the closed status
enumeration. -/
inductive applicationStatus where
  | ALL
  | APPEAL_DECIDED
  | APPEAL_LODGED
  | AWAITING_DECISION
  | DECIDED
  | REGISTERED
  | UNKNOWN
  | WITHDRAWN
deriving DecidableEq, Repr

/-- The display string of each status (the Python enum member values,
idox.py lines 26-33). -/
def applicationStatus.value : applicationStatus → String
  | .ALL => ""
  | .APPEAL_DECIDED => "Appeal decided"
  | .APPEAL_LODGED => "Appeal lodged"
  | .AWAITING_DECISION => "Awaiting decision"
  | .DECIDED => "Decided"
  | .REGISTERED => "Registered"
  | .UNKNOWN => "Unknown"
  | .WITHDRAWN => "Withdrawn"

/-! ### Requests, metadata, and handler effects

A Scrapy callback produces a stream of yielded values: log calls are made
along the way, and each yielded value is either a new `Request` or an
"item" handed to the pipeline.  The embedding records this stream as a
list of `Effect`s; a raised exception aborts the callback, embedded as
`Except.error`. -/

/-- The two detail-tab callbacks a request can name. -/
inductive Callback where
  | summaryTab
  | furtherInfoTab
deriving DecidableEq, Repr

/-- The `meta` dict built in `_parse_single_result` (idox.py lines 137-142)
and extended by the detail handlers.  The `original_response` entry is
never read downstream and is omitted.  An absent dict key is `none`. -/
structure Meta where
  keyval : String := ""
  limit : Nat := 0
  applications_scraped : Nat := 0
  details_summary : Option PlanningApplicationDetailsSummary := none
  details_further_information : Option PlanningApplicationDetailsFurtherInformation := none
deriving DecidableEq, Repr

/-- One observable step of a callback: a log line, a yielded `Request`, a
yielded item, or — as the merge branches actually do — a yielded generator
object.  `create_planning_application_item` is a generator function
(its body contains `yield`), so `yield self.create_planning_application_item(...)`
(idox.py lines 219 and 269) yields the returned generator object itself,
not the `PlanningApplicationItem` built inside it; `yieldCreateItemGenerator`
records the closed-over arguments of that generator. -/
inductive Effect where
  | logInfo (msg : String)
  | logError (msg : String)
  | detailRequest (url : String) (cb : Callback) (meta : Meta)
  | nextPageRequest (url : String)
  | yieldItem (item : PlanningApplicationItem)
  | yieldCreateItemGenerator (lpa : String) (meta : Meta)
deriving DecidableEq, Repr

/-- Is the effect an error-level log line? -/
def isLogError : Effect → Bool
  | .logError _ => true
  | _ => false

/-- Is the effect a yielded detail-page request? -/
def isDetailRequest : Effect → Bool
  | .detailRequest _ _ _ => true
  | _ => false

/-- Is the effect a yielded next-listing-page request? -/
def isNextPageRequest : Effect → Bool
  | .nextPageRequest _ => true
  | _ => false

/-- Is the effect any yielded request? -/
def isAnyRequest (e : Effect) : Bool :=
  isDetailRequest e || isNextPageRequest e

/-- A fetched page, as the handlers select from it.  Each field is the
result of one of the CSS selections the code performs: `messagebox` is
`message_box[0].extract()` when `.messagebox` matches, `searchresults` is
the list of `.searchresult` rows when `#searchresults` matches,
`simpleDetailsTable` / `applicationDetails` are the summary and
further-information tables when their id selectors match. -/
structure ListingRow where
  href : Option String := none
deriving DecidableEq, Repr

/-- See `ListingRow`; one structure models any response the spider handles. -/
structure Page where
  url : String := ""
  messagebox : Option String := none
  hasApplicationTools : Bool := false
  searchresults : Option (List ListingRow) := none
  nextHref : Option String := none
  simpleDetailsTable : Option HtmlTable := none
  applicationDetails : Option HtmlTable := none
deriving DecidableEq, Repr

/-- The crawl-wide counter state the controller owns: `applications_scraped`
and the configured `limit` (from `BaseSpider`, read in idox.py lines
113 and 134-135). -/
structure CrawlState where
  applications_scraped : Nat
  limit : Nat
deriving DecidableEq, Repr

/-- Modelled from the spec: `BaseSpider.should_scrape_application` is defined
in `planning_applications/spiders/base.py`, which is not under `src/`.  The
spec's Crawl Controller (section 4.6) spawns both detail fetches for every
row with a valid key, so the toggle is modelled as `true`. -/
def should_scrape_application : Bool := true

/-! ### `create_planning_application_item` and the merge call sites -/

/-- The body of `create_planning_application_item` (idox.py lines 458-495):
reads both detail structures out of `meta` (a missing dict key raises
`KeyError`) and builds the merged item.  The `response` parameter is unused
by the live body. -/
def create_planning_application_item (lpa : String) (meta : Meta) :
    Except PyErr PlanningApplicationItem :=
  match meta.details_summary with
  | none => .error (.keyError "details_summary")
  | some details_summary =>
    match meta.details_further_information with
    | none => .error (.keyError "details_further_information")
    | some details_further_information =>
      .ok
        { lpa := lpa
          reference := details_summary.reference
          application_received := details_summary.application_received
          application_validated := details_summary.application_validated
          address := details_summary.address
          proposal := details_summary.proposal
          appeal_status := details_summary.appeal_status
          appeal_decision := details_summary.appeal_decision
          application_type := details_further_information.application_type
          expected_decision_level := details_further_information.expected_decision_level
          case_officer := details_further_information.case_officer
          parish := details_further_information.parish
          ward := details_further_information.ward
          district_reference := details_further_information.district_reference
          applicant_name := details_further_information.applicant_name
          applicant_address := details_further_information.applicant_address
          environmental_assessment_requested :=
            details_further_information.environmental_assessment_requested }

/-- `create_planning_application_item` has two required positional
parameters besides `self`: `meta` and `response` (idox.py line 459). -/
def create_planning_application_item_paramCount : Nat := 2

/-- A Python call `self.create_planning_application_item(...)` passing
`nargs` positional arguments.  Binding happens eagerly even for a generator
function, so passing fewer than the required arguments raises `TypeError`
at the call; otherwise the call returns a generator object, and yielding it
yields that object (not the item its body would build). -/
def call_create_planning_application_item (nargs : Nat) (lpa : String) (meta : Meta) :
    Except PyErr Effect :=
  if nargs < create_planning_application_item_paramCount then
    .error (.typeError "create_planning_application_item missing required positional argument response")
  else
    .ok (.yieldCreateItemGenerator lpa meta)

/-! ### The detail-tab handlers -/

/-- The date-cell idiom of `parse_details_summary_tab` (idox.py lines
202-208): a missing or empty cell is skipped (the field stays absent), a
non-empty cell goes through `datetime.strptime(s, "%a %d %b %Y")`, whose
`ValueError` propagates. -/
def parse_date_cell : Option String → Except PyErr (Option Date)
  | none => .ok none
  | some s =>
    if s = "" then .ok none
    else
      match strptime_a_d_b_Y s with
      | .ok d => .ok (some d)
      | .error e => .error e

/-- `IdoxSpider.parse_details_summary_tab` (idox.py lines 191-226):
index into the `#simpleDetailsTable` selection (raising `IndexError` when
the table is absent), extract the summary fields, then either call
`create_planning_application_item` — passing only `meta`, one argument
(line 219) — when the further-information half is already in `meta`, or
re-request the same URL with the further-information callback. -/
def parse_details_summary_tab (lpa : String) (meta : Meta) (response : Page) :
    Except PyErr (List Effect) :=
  let intro := Effect.logInfo ("Parsing results on " ++ response.url ++ " (parse_details_summary_tab)")
  match response.simpleDetailsTable with
  | none => .error .indexError
  | some summary_table =>
    match parse_date_cell (get_horizontal_table_value summary_table "Application Received") with
    | .error e => .error e
    | .ok application_received =>
      match parse_date_cell (get_horizontal_table_value summary_table "Application Validated") with
      | .error e => .error e
      | .ok application_validated =>
        let details_summary : PlanningApplicationDetailsSummary :=
          { reference := get_horizontal_table_value summary_table "Reference"
            application_received := application_received
            application_validated := application_validated
            address := get_horizontal_table_value summary_table "Address"
            proposal := get_horizontal_table_value summary_table "Proposal"
            appeal_status := get_horizontal_table_value summary_table "Appeal Status"
            appeal_decision := get_horizontal_table_value summary_table "Appeal Decision" }
        let meta' := { meta with details_summary := some details_summary }
        if meta'.details_further_information.isSome then
          match call_create_planning_application_item 1 lpa meta' with
          | .error e => .error e
          | .ok eff => .ok [intro, eff]
        else
          .ok [intro, .detailRequest response.url .furtherInfoTab meta']

/-- `IdoxSpider.parse_details_further_information_tab` (idox.py lines
235-276): index into the `#applicationDetails` selection (raising
`IndexError` when the table is absent), extract the further-information
fields (`applicant_name` is assigned twice with the same expression, lines
253 and 257, which is idempotent), then either call
`create_planning_application_item(meta, response)` — two arguments, line
269 — when the summary half is already in `meta`, or re-request the same
URL with the summary callback. -/
def parse_details_further_information_tab (lpa : String) (meta : Meta) (response : Page) :
    Except PyErr (List Effect) :=
  let intro := Effect.logInfo
    ("Parsing results on " ++ response.url ++ " (parse_details_further_information_tab)")
  match response.applicationDetails with
  | none => .error .indexError
  | some details_table =>
    let details_further_information : PlanningApplicationDetailsFurtherInformation :=
      { application_type := get_horizontal_table_value details_table "Application Type"
        expected_decision_level := get_horizontal_table_value details_table "Expected Decision Level"
        case_officer := get_horizontal_table_value details_table "Case Officer"
        parish := get_horizontal_table_value details_table "Parish"
        ward := get_horizontal_table_value details_table "Ward"
        applicant_name := get_horizontal_table_value details_table "Applicant Name"
        district_reference := get_horizontal_table_value details_table "District Reference"
        applicant_address := get_horizontal_table_value details_table "Applicant Address"
        environmental_assessment_requested :=
          get_horizontal_table_value details_table "Environmental Assessment Requested" }
    let meta' := { meta with details_further_information := some details_further_information }
    if meta'.details_summary.isSome then
      match call_create_planning_application_item 2 lpa meta' with
      | .error e => .error e
      | .ok eff => .ok [intro, eff]
    else
      .ok [intro, .detailRequest response.url .summaryTab meta']

/-! ### The crawl controller and pagination walker -/

/-- `response.urljoin`: the detail links and next-page links the spider
meets are either absolute or resolved against the listing URL; the
embedding keeps the absolute case exact and models relative resolution as
concatenation (no claim exercises the relative case). -/
def urljoin (base url : String) : String :=
  if pyIn "://" url then url else base ++ url

/-- `IdoxSpider._get_single_result_details_summary_url` (idox.py lines
188-189): join the row's first anchor href onto the listing URL; a row with
no anchor gives `None`, which `urljoin` rejects with `TypeError`. -/
def _get_single_result_details_summary_url (result : ListingRow) (response : Page) :
    Except PyErr String :=
  match result.href with
  | none => .error (.typeError "Cannot mix str and non-str arguments")
  | some href => .ok (urljoin response.url href)

/-- `IdoxSpider._get_single_result_details_further_information_url`
(idox.py lines 228-233): the summary URL with
`activeTab=summary` replaced by `activeTab=details`. -/
def _get_single_result_details_further_information_url (result : ListingRow) (response : Page) :
    Except PyErr String :=
  match _get_single_result_details_summary_url result response with
  | .error e => .error e
  | .ok u => .ok (pyReplace u "activeTab=summary" "activeTab=details")

/-- The key extraction of idox.py line 129,
`details_summary_url.split("keyVal=")[1].split("&")[0] or ""`:
`none` models the `IndexError` raised by `[1]` when the URL has no
`keyVal=` occurrence; otherwise the part before the next `&`
(`[0]` always exists, and `or ""` maps the empty string to itself). -/
def keyvalOf (details_summary_url : String) : Option String :=
  match (pySplit details_summary_url "keyVal=").get? 1 with
  | none => none
  | some part => some ((pySplit part "&").headD "")

/-- `IdoxSpider._parse_single_result` (idox.py lines 125-156): derive the
two detail URLs, extract `keyval` (an `IndexError` from line 129
propagates), log and skip the row when `keyval` is empty, and otherwise —
when `should_scrape_application` — bump the counter and yield the pair of
detail requests sharing one `meta`. -/
def _parse_single_result (should : Bool) (st : CrawlState) (result : ListingRow)
    (response : Page) : Except PyErr (CrawlState × List Effect) :=
  match _get_single_result_details_summary_url result response with
  | .error e => .error e
  | .ok details_summary_url =>
    match _get_single_result_details_further_information_url result response with
    | .error e => .error e
    | .ok details_further_information_url =>
      match keyvalOf details_summary_url with
      | none => .error .indexError
      | some keyval =>
        if keyval = "" then
          .ok (st, [.logError ("Failed to parse keyval from " ++ details_summary_url ++ ", cannot continue")])
        else if should then
          let st' : CrawlState := { st with applications_scraped := st.applications_scraped + 1 }
          let meta : Meta :=
            { keyval := keyval
              limit := st'.limit
              applications_scraped := st'.applications_scraped }
          .ok (st', [.detailRequest details_summary_url .summaryTab meta,
                     .detailRequest details_further_information_url .furtherInfoTab meta])
        else
          .ok (st, [])

/-- The per-row loop of `parse_results` (idox.py lines 111-117): log the
row, stop (returning from the generator, recorded by the `Bool` as "loop
not completed") once `applications_scraped >= limit`, otherwise run
`_parse_single_result` (whose exceptions propagate through `yield from`)
and continue with the remaining rows. -/
def parse_results_rows (should : Bool) (response : Page) :
    CrawlState → List ListingRow → Except PyErr (CrawlState × List Effect × Bool)
  | st, [] => .ok (st, ([], true))
  | st, result :: rest =>
    let heading := Effect.logInfo ("heading into " ++ (result.href.getD "None"))
    if st.limit ≤ st.applications_scraped then
      .ok (st, ([heading,
                 .logInfo ("Reached the limit of " ++ toString st.limit ++ " applications")], false))
    else
      match _parse_single_result should st result response with
      | .error e => .error e
      | .ok (st', effs) =>
        match parse_results_rows should response st' rest with
        | .error e => .error e
        | .ok (st'', (effs', completed)) => .ok (st'', (heading :: effs ++ effs', completed))

/-- `IdoxSpider.parse_results` (idox.py lines 85-123): inspect the message
banner first ("No results found" is an info stop, "Too many results found"
is a single error log and a stop); short-circuit into the summary handler
when `#applicationTools` marks a single-application page; stop when
`#searchresults` is absent; otherwise walk the rows under the scrape limit
and, only if the row loop ran to completion, follow the `.next` link. -/
def parse_results (should : Bool) (lpa : String) (meta : Meta) (st : CrawlState)
    (response : Page) : Except PyErr (CrawlState × List Effect) :=
  let banner : Option (List Effect) :=
    match response.messagebox with
    | some mb =>
      if pyIn "No results found" mb then
        some [.logInfo ("No applications found on " ++ response.url)]
      else if pyIn "Too many results found" mb then
        some [.logError ("Too many results found on " ++ response.url ++ ". Make the search more specific.")]
      else none
    | none => none
  match banner with
  | some effs => .ok (st, effs)
  | none =>
    if response.hasApplicationTools then
      match parse_details_summary_tab lpa meta response with
      | .error e => .error e
      | .ok effs =>
        .ok (st, .logInfo ("Only one application found on " ++ response.url) :: effs)
    else
      match response.searchresults with
      | none => .ok (st, [.logInfo ("No applications found on " ++ response.url)])
      | some search_results =>
        let found := Effect.logInfo
          ("Found " ++ toString search_results.length ++ " applications on " ++ response.url)
        match parse_results_rows should response st search_results with
        | .error e => .error e
        | .ok (st', (effs, completed)) =>
          if completed then
            match response.nextHref with
            | some next_page =>
              .ok (st', found :: effs ++
                [.logInfo ("Found next page at " ++ next_page),
                 .nextPageRequest (urljoin response.url next_page)])
            | none => .ok (st', found :: effs)
          else
            .ok (st', found :: effs)

/-! ### The search query builder and startup configuration -/

/-- `IdoxSpider.submit_form` (idox.py lines 69-83): the form payload as an
ordered key-value list.  The `_csrf` value is whatever the page yields
(possibly `None`); `caseStatus` is added only when the filter is not
`ALL`. -/
def submit_form (csrf : Option String) (start_date end_date : Date)
    (filter_status : applicationStatus) : List (String × Option String) :=
  let formdata : List (String × Option String) :=
    [("_csrf", csrf),
     ("caseAddressType", some "Application"),
     ("date(applicationValidatedStart)", some start_date.strftime_dmY),
     ("date(applicationValidatedEnd)", some end_date.strftime_dmY),
     ("searchType", some "Application")]
  if filter_status = applicationStatus.ALL then formdata
  else formdata ++ [("caseStatus", some filter_status.value)]

/-- idox.py line 43: the class-attribute default of `start_date` is the
literal string `"2024-11-01"` — not `DEFAULT_START_DATE` — although the
comment on line 42 documents the default as 1 January of the current
year. -/
def IdoxSpider.start_date_default : String := "2024-11-01"

/-- idox.py line 22: `DEFAULT_END_DATE = datetime.now().date()`, i.e. the
current date; the embedding passes "now" in. -/
def DEFAULT_END_DATE (today : Date) : Date := today

/-- The string-to-date conversion `IdoxSpider.__init__` applies to a
string-valued `start_date` (idox.py lines 51-52):
`datetime.strptime(s, DEFAULT_DATE_FORMAT).date()`. -/
def IdoxSpider.resolve_start_date (s : String) : Except PyErr Date :=
  strptime_Y_m_d s

/-- The date-range validation of `IdoxSpider.__init__` (idox.py lines
60-61), run at construction before any request is issued: raise
`ValueError` when `start_date > end_date`, otherwise keep the pair. -/
def IdoxSpider.init_date_check (start_date end_date : Date) :
    Except PyErr (Date × Date) :=
  if Date.lt end_date start_date then
    .error (.valueError "start_date must be earlier than to_date")
  else
    .ok (start_date, end_date)

example : pyIn "Reference" "Some Reference here" = true := by decide
example : pyIn "No results found" "Too many results found on this page" = false := by decide
example : pySplit "https://e.x/a?keyVal=AAA&x=1" "keyVal=" = ["https://e.x/a?", "AAA&x=1"] := by decide
example : pySplit "abc" "keyVal=" = ["abc"] := by decide
example : pyReplace "u?activeTab=summary&k=1" "activeTab=summary" "activeTab=details" = "u?activeTab=details&k=1" := by decide
example : pyStrip "  24/1234/FUL " = "24/1234/FUL" := by decide
example : pyLower "MoN" = "mon" := by decide
example : pyToNat? "01" = some 1 := by decide
example : pyToNat? "1a" = none := by decide
example : strptime_a_d_b_Y "Mon 01 Jan 2024" = .ok ⟨2024, 1, 1⟩ := by decide
example : strptime_a_d_b_Y "31/12/2024" = .error (.valueError "31/12/2024") := by decide
example : strptime_Y_m_d "2024-11-01" = .ok ⟨2024, 11, 1⟩ := by decide
example : Date.strftime_dmY ⟨2024, 1, 5⟩ = "05/01/2024" := by decide

example : keyvalOf "https://e.x/appDetails?activeTab=summary&keyVal=AAA" = some "AAA" := by decide
example : keyvalOf "https://e.x/appDetails?activeTab=summary&keyVal=&x=1" = some "" := by decide
example : keyvalOf "https://e.x/appDetails?activeTab=summary" = none := by decide
/-! ### Helper lemmas -/

/-- A row whose anchor yields an absolute URL with a non-empty `keyVal`
makes `_parse_single_result` bump the counter and spawn the two detail
requests. -/
theorem parse_single_result_spawns_pair (st : CrawlState) (row : ListingRow) (page : Page)
    (u k : String) (hhref : row.href = some u) (habs : pyIn "://" u = true)
    (hkey : keyvalOf u = some k) (hne : k ≠ "") :
    _parse_single_result true st row page =
      .ok ({ st with applications_scraped := st.applications_scraped + 1 },
        [.detailRequest u .summaryTab
           { keyval := k, limit := st.limit, applications_scraped := st.applications_scraped + 1 },
         .detailRequest (pyReplace u "activeTab=summary" "activeTab=details") .furtherInfoTab
           { keyval := k, limit := st.limit, applications_scraped := st.applications_scraped + 1 }]) := by
  simp [_parse_single_result, _get_single_result_details_summary_url,
    _get_single_result_details_further_information_url, urljoin, hhref, habs, hkey, hne]

/-- A row whose anchor yields an absolute URL whose `keyVal` value is empty
makes `_parse_single_result` log one error and skip the row, leaving the
counter untouched. -/
theorem parse_single_result_skips_empty_keyval (st : CrawlState) (row : ListingRow) (page : Page)
    (u : String) (hhref : row.href = some u) (habs : pyIn "://" u = true)
    (hkey : keyvalOf u = some "") :
    _parse_single_result true st row page =
      .ok (st, [.logError ("Failed to parse keyval from " ++ u ++ ", cannot continue")]) := by
  simp [_parse_single_result, _get_single_result_details_summary_url,
    _get_single_result_details_further_information_url, urljoin, hhref, habs, hkey]

/-- A row whose header cells never contain the label contributes no selected
text nodes. -/
theorem rowValueTexts_eq_nil_of_no_header (label : String) (row : List Cell)
    (h : ∀ c ∈ row, (c.tag == CellTag.th && pyIn label c.text) = false) :
    rowValueTexts label row false = [] := by
  induction row with
  | nil => rfl
  | cons c rest ih =>
    have hc := h c (List.mem_cons_self c rest)
    have hrest : ∀ x ∈ rest, (x.tag == CellTag.th && pyIn label x.text) = false :=
      fun x hx => h x (List.mem_cons_of_mem _ hx)
    cases ht : c.tag with
    | th =>
      have hpy : pyIn label c.text = false := by simpa [ht] using hc
      simp [rowValueTexts, ht, hpy, ih hrest]
    | td =>
      simp [rowValueTexts, ht, ih hrest]

/-- The extractor on an empty table. -/
theorem get_horizontal_table_value_empty (label : String) :
    get_horizontal_table_value ⟨[]⟩ label = none := rfl

/-! ### Claims -/

/-- C1.  The claim says both completion orders of the two detail fetches
end in exactly one merged record with order-independent field values.  In
the code the two merge branches are not symmetric:
`parse_details_summary_tab` calls `self.create_planning_application_item(meta)`
with one argument (idox.py line 219) although the method requires `meta`
and `response` (line 458), so the summary-handler-second order raises
`TypeError` instead of emitting anything, while the other order yields the
generator object returned by the generator function rather than the item.
This theorem evaluates both handlers at the failing input: a further-
information structure already present in `meta`. -/
theorem C1_merge_order_asymmetry :
    parse_details_summary_tab "lpa" { keyval := "K", details_further_information := some {} }
      { url := "https://e.x/s", simpleDetailsTable := some ⟨[]⟩ } =
      .error (.typeError "create_planning_application_item missing required positional argument response") ∧
    parse_details_further_information_tab "lpa" { keyval := "K", details_summary := some {} }
      { url := "https://e.x/f", applicationDetails := some ⟨[]⟩ } =
      .ok [.logInfo "Parsing results on https://e.x/f (parse_details_further_information_tab)",
           .yieldCreateItemGenerator "lpa"
             { keyval := "K", details_summary := some {},
               details_further_information := some {} }] :=
  ⟨by decide, by decide⟩

/-- C3 counterexample.  A listing row whose detail link has no `keyVal=`
parameter at all does not reach the logged-skip path: `split("keyVal=")[1]`
(idox.py line 129) raises `IndexError`, which propagates out of the row
loop, so the row is not merely "skipped and logged". -/
theorem C3_missing_keyval_raises_counterexample :
    _parse_single_result should_scrape_application ⟨0, 10⟩
      { href := some "https://e.x/d?activeTab=summary" } { url := "https://e.x/l" } =
      .error .indexError := by decide

/-- C3 amended.  A row whose detail link carries `keyVal=` with an empty
value is logged and skipped without raising, the counter is untouched, and
the loop continues with the sibling rows; but a link with no `keyVal=` at
all raises `IndexError` instead (see the counterexample). -/
theorem C3_empty_keyval_logged_and_skipped (st : CrawlState) (rowBad rowGood : ListingRow)
    (page : Page) (u ug kg : String)
    (hb : rowBad.href = some u) (ab : pyIn "://" u = true) (kb : keyvalOf u = some "")
    (hg : rowGood.href = some ug) (ag : pyIn "://" ug = true) (kvg : keyvalOf ug = some kg)
    (ng : kg ≠ "") (hlim : st.applications_scraped < st.limit) :
    _parse_single_result should_scrape_application st rowBad page =
      .ok (st, [.logError ("Failed to parse keyval from " ++ u ++ ", cannot continue")]) ∧
    parse_results_rows should_scrape_application page st [rowBad, rowGood] =
      .ok ({ st with applications_scraped := st.applications_scraped + 1 },
        ([.logInfo ("heading into " ++ u),
          .logError ("Failed to parse keyval from " ++ u ++ ", cannot continue"),
          .logInfo ("heading into " ++ ug),
          .detailRequest ug .summaryTab
            { keyval := kg, limit := st.limit,
              applications_scraped := st.applications_scraped + 1 },
          .detailRequest (pyReplace ug "activeTab=summary" "activeTab=details") .furtherInfoTab
            { keyval := kg, limit := st.limit,
              applications_scraped := st.applications_scraped + 1 }], true)) := by
  have hskip := parse_single_result_skips_empty_keyval st rowBad page u hb ab kb
  have hspawn := parse_single_result_spawns_pair st rowGood page ug kg hg ag kvg ng
  have hnotle : ¬ st.limit ≤ st.applications_scraped := Nat.not_le.mpr hlim
  constructor
  · simpa [should_scrape_application] using hskip
  · simp [parse_results_rows, should_scrape_application, hnotle, hskip, hspawn, hb, hg]

/-- C4.  The claim (and the code comment on idox.py line 42, and the unused
`DEFAULT_START_DATE` of line 21) say the default start date is 1 January of
the current year; the class attribute actually defaults to the literal
string `"2024-11-01"` (line 43), which `__init__` parses to 1 November
2024 — a date that is 1 January of no year.  The end-date default
(`DEFAULT_END_DATE`, line 22) is indeed today. -/
theorem C4_default_start_date_literal :
    IdoxSpider.resolve_start_date IdoxSpider.start_date_default = .ok ⟨2024, 11, 1⟩ ∧
    (∀ year : Nat, (⟨2024, 11, 1⟩ : Date) ≠ ⟨year, 1, 1⟩) ∧
    (∀ today : Date, DEFAULT_END_DATE today = today) := by
  refine ⟨by decide, ?_, fun _ => rfl⟩
  intro year h
  simp [Date.mk.injEq] at h

/-- C5.  The built search payload carries a `caseStatus` field exactly when
the filter is not `ALL`, and its value is the filter's enumerated display
string. -/
theorem C5_case_status_field (csrf : Option String) (start_date end_date : Date)
    (filter_status : applicationStatus) :
    (submit_form csrf start_date end_date filter_status).lookup "caseStatus" =
      if filter_status = applicationStatus.ALL then none
      else some (some filter_status.value) := by
  cases filter_status <;> simp [submit_form, List.lookup, applicationStatus.value]

/-- C2.  On a listing page with three rows under a scrape limit of 2 (counter
starting at 0), exactly the first two rows spawn their pair of detail
requests; the counter check stops the loop before the third row is handed to
`_parse_single_result`, and the `.next` link is never requested. -/
theorem C2_scrape_limit_stops_after_two_rows (lpa : String) (meta : Meta)
    (r1 r2 r3 : ListingRow) (base next_page : String) (u1 u2 k1 k2 : String)
    (h1 : r1.href = some u1) (a1 : pyIn "://" u1 = true) (kv1 : keyvalOf u1 = some k1)
    (n1 : k1 ≠ "")
    (h2 : r2.href = some u2) (a2 : pyIn "://" u2 = true) (kv2 : keyvalOf u2 = some k2)
    (n2 : k2 ≠ "") :
    ∃ effs,
      parse_results should_scrape_application lpa meta ⟨0, 2⟩
        { url := base, searchresults := some [r1, r2, r3], nextHref := some next_page } =
        .ok (⟨2, 2⟩, effs) ∧
      (effs.filter isDetailRequest).length = 4 ∧
      (effs.filter isNextPageRequest).length = 0 := by
  have e1 := parse_single_result_spawns_pair ⟨0, 2⟩ r1
    { url := base, searchresults := some [r1, r2, r3], nextHref := some next_page }
    u1 k1 h1 a1 kv1 n1
  have e2 := parse_single_result_spawns_pair ⟨1, 2⟩ r2
    { url := base, searchresults := some [r1, r2, r3], nextHref := some next_page }
    u2 k2 h2 a2 kv2 n2
  refine ⟨[.logInfo ("Found 3 applications on " ++ base),
           .logInfo ("heading into " ++ u1),
           .detailRequest u1 .summaryTab
             { keyval := k1, limit := 2, applications_scraped := 1 },
           .detailRequest (pyReplace u1 "activeTab=summary" "activeTab=details") .furtherInfoTab
             { keyval := k1, limit := 2, applications_scraped := 1 },
           .logInfo ("heading into " ++ u2),
           .detailRequest u2 .summaryTab
             { keyval := k2, limit := 2, applications_scraped := 2 },
           .detailRequest (pyReplace u2 "activeTab=summary" "activeTab=details") .furtherInfoTab
             { keyval := k2, limit := 2, applications_scraped := 2 },
           .logInfo ("heading into " ++ (r3.href.getD "None")),
           .logInfo "Reached the limit of 2 applications"], ?_, ?_, ?_⟩
  · simp only [parse_results, parse_results_rows, should_scrape_application, e1, e2, h1, h2]
    simp [e1, e2]
    exact ⟨congrArg (· ++ base) (by decide), by decide⟩
  · simp [isDetailRequest]
  · simp [isNextPageRequest]

/-- C6.  A listing page whose message banner reads "Too many results found"
(and is not a "No results found" banner) makes `parse_results` log exactly
one error and stop: no detail requests, no next-page request, no exception,
and the counter untouched. -/
theorem C6_too_many_results_single_error (should : Bool) (lpa : String) (meta : Meta)
    (st : CrawlState) (page : Page) (mb : String)
    (hmb : page.messagebox = some mb)
    (hTooMany : pyIn "Too many results found" mb = true)
    (hNoResults : pyIn "No results found" mb = false) :
    ∃ effs,
      parse_results should lpa meta st page = .ok (st, effs) ∧
      (effs.filter isLogError).length = 1 ∧
      (effs.filter isAnyRequest).length = 0 := by
  refine ⟨[.logError ("Too many results found on " ++ page.url ++ ". Make the search more specific.")],
    ?_, by simp [isLogError], by simp [isAnyRequest, isDetailRequest, isNextPageRequest]⟩
  simp [parse_results, hmb, hTooMany, hNoResults]

/-- C7.  The field extractor: when no header cell of the table contains the
label, the lookup is absent; on a one-row `th`/`td` table it returns the
stripped value text exactly when the header contains the label and the value
cell is non-empty; and on the spec's scenario row it returns the reference
string. -/
theorem C7_field_extractor_lookup :
    (∀ (table : HtmlTable) (label : String),
        tableHasHeaderContaining table label = false →
        get_horizontal_table_value table label = none) ∧
    (∀ (header value label : String),
        get_horizontal_table_value ⟨[[⟨.th, header⟩, ⟨.td, value⟩]]⟩ label =
          if pyIn label header && value != "" then some (pyStrip value) else none) ∧
    get_horizontal_table_value ⟨[[⟨.th, "Reference"⟩, ⟨.td, "24/1234/FUL"⟩]]⟩ "Reference" =
      some "24/1234/FUL" := by
  refine ⟨?_, ?_, by decide⟩
  · intro table label h
    unfold tableHasHeaderContaining at h
    rw [List.any_eq_false] at h
    have hnil : ∀ r ∈ table.rows, rowValueTexts label r false = [] := by
      intro r hr
      have hany : (r.any fun c => c.tag == CellTag.th && pyIn label c.text) = false :=
        Bool.eq_false_iff.mpr (h r hr)
      rw [List.any_eq_false] at hany
      exact rowValueTexts_eq_nil_of_no_header label r
        (fun c hc => Bool.eq_false_iff.mpr (hany c hc))
    have hflat : (table.rows.map (fun r => rowValueTexts label r false)).flatten = [] := by
      rw [List.flatten_eq_nil_iff]
      intro xs hxs
      obtain ⟨r, hr, rfl⟩ := List.mem_map.mp hxs
      exact hnil r hr
    simp [get_horizontal_table_value, tableValueTexts, hflat]
  · intro header value label
    by_cases hp : (pyIn label header && value != "") = true
    · have hv : ¬ value = "" := by
        rcases Bool.and_eq_true .. |>.mp hp with ⟨-, hv⟩
        simpa using hv
      simp [get_horizontal_table_value, tableValueTexts, rowValueTexts, hp, hv]
    · simp [get_horizontal_table_value, tableValueTexts, rowValueTexts, hp]

/-- C8.  The date normalizer as the summary handler uses it: the literal
detail-page format parses ("Mon 01 Jan 2024" gives 2024-01-01), a missing or
empty cell yields an absent value rather than an error, and an unparseable
non-empty cell surfaces the `ValueError` out of the handler rather than
being defaulted. -/
theorem C8_date_cell_normalization :
    parse_date_cell (some "Mon 01 Jan 2024") = .ok (some ⟨2024, 1, 1⟩) ∧
    parse_date_cell (some "") = .ok none ∧
    parse_date_cell none = .ok none ∧
    (∀ (s : String) (e : PyErr), s ≠ "" → strptime_a_d_b_Y s = .error e →
        parse_date_cell (some s) = .error e) ∧
    (∀ (lpa : String) (meta : Meta) (page : Page) (tbl : HtmlTable) (s : String) (e : PyErr),
        page.simpleDetailsTable = some tbl →
        get_horizontal_table_value tbl "Application Received" = some s →
        s ≠ "" → strptime_a_d_b_Y s = .error e →
        parse_details_summary_tab lpa meta page = .error e) := by
  refine ⟨by decide, by decide, by decide, ?_, ?_⟩
  · intro s e hs herr
    simp [parse_date_cell, hs, herr]
  · intro lpa meta page tbl s e htbl hget hs herr
    simp [parse_details_summary_tab, htbl, hget, parse_date_cell, hs, herr]

/-- C9.  The startup date-range check (idox.py lines 60-61): a constructed
configuration always satisfies `start_date <= end_date`, and a reversed
range fails fast with `ValueError` at construction, before any request can
be issued. -/
theorem C9_start_date_not_after_end_date :
    (∀ (s e : Date) (p : Date × Date),
        IdoxSpider.init_date_check s e = .ok p → Date.le s e = true) ∧
    (∀ s e : Date, Date.lt e s = true →
        IdoxSpider.init_date_check s e =
          .error (.valueError "start_date must be earlier than to_date")) := by
  constructor
  · intro s e p h
    unfold IdoxSpider.init_date_check at h
    by_cases hlt : Date.lt e s = true
    · simp [hlt] at h
    · exact Date.le_of_not_lt (Bool.eq_false_iff.mpr hlt)
  · intro s e hlt
    simp [IdoxSpider.init_date_check, hlt]

/-- C10.  A detail response missing its expected table raises `IndexError`
(the `[0]` on the id selector, idox.py lines 198 and 240) rather than
producing an all-absent structure; a present table with missing rows does
give a structure with absent fields and continues normally. -/
theorem C10_missing_details_table_raises :
    (∀ (lpa : String) (meta : Meta) (page : Page),
        page.simpleDetailsTable = none →
        parse_details_summary_tab lpa meta page = .error .indexError) ∧
    (∀ (lpa : String) (meta : Meta) (page : Page),
        page.applicationDetails = none →
        parse_details_further_information_tab lpa meta page = .error .indexError) ∧
    (∀ (lpa : String) (meta : Meta) (page : Page),
        page.simpleDetailsTable = some ⟨[]⟩ →
        meta.details_further_information = none →
        parse_details_summary_tab lpa meta page =
          .ok [.logInfo ("Parsing results on " ++ page.url ++ " (parse_details_summary_tab)"),
               .detailRequest page.url .furtherInfoTab
                 { meta with details_summary := some {} }]) := by
  refine ⟨?_, ?_, ?_⟩
  · intro lpa meta page h
    simp [parse_details_summary_tab, h]
  · intro lpa meta page h
    simp [parse_details_further_information_tab, h]
  · intro lpa meta page htbl hfi
    simp [parse_details_summary_tab, htbl, hfi, get_horizontal_table_value_empty,
      parse_date_cell]

/-! ### Witnesses -/

/-- Witness for C2 at fully concrete rows. -/
theorem C2_scrape_limit_stops_after_two_rows_witness :
    ∃ effs,
      parse_results should_scrape_application "lpa" {} ⟨0, 2⟩
        { url := "https://e.x/l",
          searchresults := some
            [{ href := some "https://e.x/d?activeTab=summary&keyVal=A" },
             { href := some "https://e.x/d?activeTab=summary&keyVal=B" },
             { href := some "https://e.x/d?activeTab=summary&keyVal=C" }],
          nextHref := some "page=2" } =
        .ok (⟨2, 2⟩, effs) ∧
      (effs.filter isDetailRequest).length = 4 ∧
      (effs.filter isNextPageRequest).length = 0 :=
  C2_scrape_limit_stops_after_two_rows "lpa" {}
    { href := some "https://e.x/d?activeTab=summary&keyVal=A" }
    { href := some "https://e.x/d?activeTab=summary&keyVal=B" }
    { href := some "https://e.x/d?activeTab=summary&keyVal=C" }
    "https://e.x/l" "page=2"
    "https://e.x/d?activeTab=summary&keyVal=A" "https://e.x/d?activeTab=summary&keyVal=B"
    "A" "B" rfl (by decide) (by decide) (by decide) rfl (by decide) (by decide) (by decide)

/-- Witness for the amended C3 at fully concrete rows. -/
theorem C3_empty_keyval_logged_and_skipped_witness :
    _parse_single_result should_scrape_application ⟨0, 5⟩
      { href := some "https://e.x/d?activeTab=summary&keyVal=&x=1" } { url := "https://e.x/l" } =
      .ok (⟨0, 5⟩,
        [.logError ("Failed to parse keyval from https://e.x/d?activeTab=summary&keyVal=&x=1" ++
          ", cannot continue")]) ∧
    parse_results_rows should_scrape_application { url := "https://e.x/l" } ⟨0, 5⟩
      [{ href := some "https://e.x/d?activeTab=summary&keyVal=&x=1" },
       { href := some "https://e.x/d?activeTab=summary&keyVal=G" }] =
      .ok (⟨1, 5⟩,
        ([.logInfo "heading into https://e.x/d?activeTab=summary&keyVal=&x=1",
          .logError ("Failed to parse keyval from https://e.x/d?activeTab=summary&keyVal=&x=1" ++
            ", cannot continue"),
          .logInfo "heading into https://e.x/d?activeTab=summary&keyVal=G",
          .detailRequest "https://e.x/d?activeTab=summary&keyVal=G" .summaryTab
            { keyval := "G", limit := 5, applications_scraped := 1 },
          .detailRequest "https://e.x/d?activeTab=details&keyVal=G" .furtherInfoTab
            { keyval := "G", limit := 5, applications_scraped := 1 }], true)) :=
  C3_empty_keyval_logged_and_skipped ⟨0, 5⟩
    { href := some "https://e.x/d?activeTab=summary&keyVal=&x=1" }
    { href := some "https://e.x/d?activeTab=summary&keyVal=G" }
    { url := "https://e.x/l" }
    "https://e.x/d?activeTab=summary&keyVal=&x=1"
    "https://e.x/d?activeTab=summary&keyVal=G" "G"
    rfl (by decide) (by decide) rfl (by decide) (by decide) (by decide) (by decide)

/-- Witness for C6 at a concrete banner. -/
theorem C6_too_many_results_single_error_witness :
    ∃ effs,
      parse_results true "lpa" {} ⟨0, 5⟩
        { url := "https://e.x/l",
          messagebox := some "Too many results found. Refine your search." } =
        .ok (⟨0, 5⟩, effs) ∧
      (effs.filter isLogError).length = 1 ∧
      (effs.filter isAnyRequest).length = 0 :=
  C6_too_many_results_single_error true "lpa" {} ⟨0, 5⟩
    { url := "https://e.x/l",
      messagebox := some "Too many results found. Refine your search." }
    "Too many results found. Refine your search." rfl (by decide) (by decide)

/-- Witness for C7 at a concrete table with no matching header. -/
theorem C7_field_extractor_lookup_witness :
    get_horizontal_table_value ⟨[[⟨.td, "stray value"⟩], [⟨.th, "Address"⟩, ⟨.td, "1 High St"⟩]]⟩
      "Reference" = none :=
  C7_field_extractor_lookup.1
    ⟨[[⟨.td, "stray value"⟩], [⟨.th, "Address"⟩, ⟨.td, "1 High St"⟩]]⟩ "Reference" (by decide)

/-- Witness for C8: an unparseable non-empty date cell surfaces its
`ValueError` out of the summary handler. -/
theorem C8_date_cell_normalization_witness :
    parse_details_summary_tab "lpa" {}
      { url := "https://e.x/s",
        simpleDetailsTable :=
          some ⟨[[⟨.th, "Application Received"⟩, ⟨.td, "31/12/2024"⟩]]⟩ } =
      .error (.valueError "31/12/2024") :=
  C8_date_cell_normalization.2.2.2.2 "lpa" {}
    { url := "https://e.x/s",
      simpleDetailsTable := some ⟨[[⟨.th, "Application Received"⟩, ⟨.td, "31/12/2024"⟩]]⟩ }
    ⟨[[⟨.th, "Application Received"⟩, ⟨.td, "31/12/2024"⟩]]⟩ "31/12/2024"
    (.valueError "31/12/2024") rfl (by decide) (by decide) (by decide)

/-- Witness for C9 at concrete dates on both sides of the check. -/
theorem C9_start_date_not_after_end_date_witness :
    Date.le ⟨2024, 1, 1⟩ ⟨2024, 2, 1⟩ = true ∧
    IdoxSpider.init_date_check ⟨2024, 5, 1⟩ ⟨2024, 1, 1⟩ =
      .error (.valueError "start_date must be earlier than to_date") :=
  ⟨C9_start_date_not_after_end_date.1 ⟨2024, 1, 1⟩ ⟨2024, 2, 1⟩
      (⟨2024, 1, 1⟩, ⟨2024, 2, 1⟩) (by decide),
   C9_start_date_not_after_end_date.2 ⟨2024, 5, 1⟩ ⟨2024, 1, 1⟩ (by decide)⟩

/-- Witness for C10 at a concrete detail page with no tables. -/
theorem C10_missing_details_table_raises_witness :
    parse_details_summary_tab "lpa" {} { url := "https://e.x/s" } = .error .indexError ∧
    parse_details_further_information_tab "lpa" {} { url := "https://e.x/f" } =
      .error .indexError :=
  ⟨C10_missing_details_table_raises.1 "lpa" {} { url := "https://e.x/s" } rfl,
   C10_missing_details_table_raises.2.1 "lpa" {} { url := "https://e.x/f" } rfl⟩

end PlanningApplications
